import Mathlib

/-!
Verification of the `MemoryTracker` component of `dainlp/utils/resources.py`.

The Python class is shallowly embedded as follows.

* A Python `dict` is an insertion-ordered association list; `getKey?` is
  `d[k]`-style lookup (returning `Option`) and `setKey` is `d[k] = v`
  (update in place when the key exists, append otherwise).
* Machine readings taken from the environment (`psutil` resident-set size,
  `torch.cuda.memory_allocated`, `torch.cuda.max_memory_allocated`) are
  passed to the methods as explicit integer parameters; `gc.collect()`,
  `torch.cuda.empty_cache()` and `torch.cuda.reset_peak_memory_stats()` are
  external effects with no bearing on the tracker's own state and are not
  modelled.
* Python instance attributes that are only created by some code paths
  (`self.gpu`, `self.cpu`, `self.cur_stage`, `self.init_reported` exist only
  when `skip_memory_metrics` is false; `self.gpu_memory_used_at_start`,
  `self.cpu_memory_used_at_start`, `self.peak_monitoring`,
  `self.cpu_memory_used_peak`, ... are created by `start`/`stop`/the monitor
  thread) are modelled as `Option` fields that are `none` while the
  attribute does not exist; reading a `none` field raises `AttributeError`.
* Methods mutate `self` and the metrics dict in place and may raise; each
  method returns the state as it is after execution up to the point of a
  raise, together with `Option PyErr` (`none` = normal return).  This keeps
  Python's partial-mutation-then-raise behaviour observable.
* The peak monitor thread is modelled two ways: `peak_monitor_function` is
  the sampling loop itself, sequentialized over the stream of readings it
  takes (with fuel for totality), and `run_sampler` records the thread's
  final effect on `self.cpu_memory_used_peak` between `start` and `stop`.
-/

/-- Errors a method of the Python class can raise. -/
inductive PyErr where
  | attributeError : String → PyErr
  | keyError : String → PyErr
  | assertionError : PyErr
deriving DecidableEq, Repr

/-- Lookup in an insertion-ordered association list (Python `d.get(k)` /
`k in d` when combined with `Option.isSome`). -/
def getKey? {α β : Type} [DecidableEq α] : List (α × β) → α → Option β
  | [], _ => none
  | (k, v) :: rest, key => if key = k then some v else getKey? rest key

/-- Assignment `d[k] = v` on an insertion-ordered association list:
overwrite in place if the key is present, append otherwise. -/
def setKey {α β : Type} [DecidableEq α] : List (α × β) → α → β → List (α × β)
  | [], key, v => [(key, v)]
  | (k, w) :: rest, key, v =>
      if k = key then (k, v) :: rest else (k, w) :: setKey rest key v

/-- One stored memory snapshot, the `dict(begin=..., end=..., alloc=...,
peaked=...)` built by `MemoryTracker.stop`.  All four keys are always
present in the Python dict, so it is a structure. -/
structure Snapshot where
  begin : Int
  end_ : Int
  alloc : Int
  peaked : Int
deriving DecidableEq, Repr

/-- The attributes allocated by `MemoryTracker.__init__` when
`skip_memory_metrics` is false: `self.gpu`, `self.cpu`, `self.cur_stage`,
`self.init_reported`.  The snapshot dicts are keyed by `self.cur_stage`
at the time `stop` runs, which is `Option String` (it can be `None`). -/
structure TrackState where
  gpu : List (Option String × Snapshot)
  cpu : List (Option String × Snapshot)
  cur_stage : Option String
  init_reported : Bool
deriving DecidableEq, Repr

/-- The Python `MemoryTracker` object.  `st` bundles the attributes created
by `__init__` only when memory metrics are not skipped; the remaining
fields are attributes created later by `start`, `stop`, or the peak
monitor thread (`none` = the attribute does not exist yet). -/
structure MemoryTracker where
  skip_memory_metrics : Bool
  st : Option TrackState
  gpu_memory_used_at_start : Option Int
  cpu_memory_used_at_start : Option Int
  peak_monitoring : Option Bool
  cpu_memory_used_peak : Option Int
  gpu_memory_used_now : Option Int
  gpu_memory_used_peak : Option Int
  cpu_memory_used_now : Option Int
deriving DecidableEq, Repr

/-- `MemoryTracker.__init__`: records the flag and, unless skipping,
allocates the tracking state (`self.gpu = {}`, `self.cpu = {}`,
`self.cur_stage = None`, `self.init_reported = False`).  The
`psutil.Process()` handle is an external resource and is not modelled. -/
def MemoryTracker.init (skip_memory_metrics : Bool) : MemoryTracker :=
  if skip_memory_metrics then
    { skip_memory_metrics := true, st := none,
      gpu_memory_used_at_start := none, cpu_memory_used_at_start := none,
      peak_monitoring := none, cpu_memory_used_peak := none,
      gpu_memory_used_now := none, gpu_memory_used_peak := none,
      cpu_memory_used_now := none }
  else
    { skip_memory_metrics := false,
      st := some { gpu := [], cpu := [], cur_stage := none, init_reported := false },
      gpu_memory_used_at_start := none, cpu_memory_used_at_start := none,
      peak_monitoring := none, cpu_memory_used_peak := none,
      gpu_memory_used_now := none, gpu_memory_used_peak := none,
      cpu_memory_used_now := none }

/-- The class attribute `MemoryTracker.stages`: the fixed caller-name →
stage-name table. -/
def MemoryTracker.stages : List (String × String) :=
  [("__init__", "init"), ("train", "train"), ("evaluate", "eval"),
   ("predict", "test"), ("test_MemoryTracker", "init")]

/-- `MemoryTracker.derive_stage`: the caller's caller's code name (obtained
in Python via `inspect`) is passed in as `caller`; `assert caller in
self.stages` raises `AssertionError` when absent, otherwise the bound
stage name is returned. -/
def MemoryTracker.derive_stage (caller : String) : Except PyErr String :=
  match getKey? MemoryTracker.stages caller with
  | some s => Except.ok s
  | none => Except.error PyErr.assertionError

/-- The readings `MemoryTracker.start` takes from the environment:
`torch.cuda.memory_allocated()` and `self.cpu_mem_used()` (process RSS). -/
structure StartEnv where
  gpu_memory_allocated : Int
  cpu_rss : Int
deriving DecidableEq, Repr

/-- The readings `MemoryTracker.stop` takes from the environment:
`torch.cuda.memory_allocated()`, `torch.cuda.max_memory_allocated()` and
`self.cpu_mem_used()` (process RSS). -/
structure StopEnv where
  gpu_memory_allocated : Int
  gpu_max_memory_allocated : Int
  cpu_rss : Int
deriving DecidableEq, Repr

/-- `MemoryTracker.start`: returns unchanged when skipping; resolves the
stage (the Python call `self.derive_stage()` sees `caller` two frames up);
returns unchanged when a *different* stage is already open; otherwise sets
`cur_stage`, takes the two begin readings and sets `peak_monitoring`
before launching the monitor thread (the launch itself is an external
effect; the thread's writes are modelled by `run_sampler`). -/
def MemoryTracker.start (t : MemoryTracker) (caller : String) (env : StartEnv) :
    MemoryTracker × Option PyErr :=
  if t.skip_memory_metrics then (t, none) else
  match MemoryTracker.derive_stage caller with
  | Except.error e => (t, some e)
  | Except.ok stage =>
    match t.st with
    | none => (t, some (PyErr.attributeError "cur_stage"))
    | some st =>
      if st.cur_stage ≠ none ∧ st.cur_stage ≠ some stage then (t, none)
      else
        ({ t with
            st := some { st with cur_stage := some stage },
            gpu_memory_used_at_start := some env.gpu_memory_allocated,
            cpu_memory_used_at_start := some env.cpu_rss,
            peak_monitoring := some true }, none)

/-- `MemoryTracker.peak_monitor_function`, sequentialized: `readings i` is
the value returned by the i-th call to `self.cpu_mem_used()` and `flag i`
is the value of `self.peak_monitoring` observed at the i-th loop check.
Starting from `peak` (initially `-1`, per `self.cpu_memory_used_peak = -1`)
and reading index `i`, each iteration takes exactly one reading, folds it
into the running maximum, and then checks the flag, exiting when the flag
is observed false.  `fuel` bounds the number of iterations so the model is
total; `none` means the loop did not exit within `fuel` iterations.  On
exit it returns the index of the final check and the final running peak. -/
def peak_monitor_function (readings : Nat → Int) (flag : Nat → Bool) :
    Nat → Int → Nat → Option (Nat × Int)
  | 0, _, _ => none
  | fuel + 1, peak, i =>
    let peak' := max (readings i) peak
    if flag i then peak_monitor_function readings flag fuel peak' (i + 1)
    else some (i, peak')

/-- The peak monitor thread's total effect on the tracker between `start`
and `stop`: it initializes `self.cpu_memory_used_peak = -1` and then keeps
the running maximum `max(self.cpu_mem_used(), self.cpu_memory_used_peak)`
over the readings it takes (see `peak_monitor_function` for the loop
itself). -/
def MemoryTracker.run_sampler (t : MemoryTracker) (readings : List Int) : MemoryTracker :=
  { t with cpu_memory_used_peak := some (readings.foldl (fun peak r => max r peak) (-1)) }

/-- `MemoryTracker.stop`.  Note the guard only returns early when a
*different* stage is open; with `cur_stage` absent (`None`) the body runs.
Following the source order: `self.peak_monitoring = False`; the two cuda
readings are stored; building the gpu snapshot dict reads
`self.gpu_memory_used_at_start` (AttributeError if `start` never ran);
the cpu reading is stored; building the cpu snapshot dict reads
`self.cpu_memory_used_at_start` and `self.cpu_memory_used_peak`; finally
`self.cur_stage = None`.  There is no `skip_memory_metrics` guard, so on a
skipping tracker reading `self.cur_stage` raises `AttributeError`. -/
def MemoryTracker.stop (t : MemoryTracker) (stage : String) (env : StopEnv) :
    MemoryTracker × Option PyErr :=
  match t.st with
  | none => (t, some (PyErr.attributeError "cur_stage"))
  | some st =>
    if st.cur_stage ≠ none ∧ st.cur_stage ≠ some stage then (t, none)
    else
      let t1 :=
        { t with
            peak_monitoring := some false,
            gpu_memory_used_now := some env.gpu_memory_allocated,
            gpu_memory_used_peak := some env.gpu_max_memory_allocated }
      match t1.gpu_memory_used_at_start with
      | none => (t1, some (PyErr.attributeError "gpu_memory_used_at_start"))
      | some gbegin =>
        let gsnap : Snapshot :=
          { begin := gbegin, end_ := env.gpu_memory_allocated,
            alloc := env.gpu_memory_allocated - gbegin,
            peaked := max 0 (env.gpu_max_memory_allocated - env.gpu_memory_allocated) }
        let st1 := { st with gpu := setKey st.gpu st.cur_stage gsnap }
        let t2 := { t1 with st := some st1, cpu_memory_used_now := some env.cpu_rss }
        match t2.cpu_memory_used_at_start, t2.cpu_memory_used_peak with
        | none, _ => (t2, some (PyErr.attributeError "cpu_memory_used_at_start"))
        | some _, none => (t2, some (PyErr.attributeError "cpu_memory_used_peak"))
        | some cbegin, some cpeak =>
          let csnap : Snapshot :=
            { begin := cbegin, end_ := env.cpu_rss,
              alloc := env.cpu_rss - cbegin,
              peaked := max 0 (cpeak - env.cpu_rss) }
          ({ t2 with
              st := some { st1 with
                            cpu := setKey st1.cpu st.cur_stage csnap,
                            cur_stage := none } }, none)

/-- The metrics dict handed to `update_metrics` (string key, byte count). -/
abbrev Metrics := List (String × Int)

/-- The f-string `f"{stage}_memory_cpu_{k}_delta"`. -/
def cpuKey (stage k : String) : String := stage ++ "_memory_cpu_" ++ k ++ "_delta"

/-- The f-string `f"{stage}_memory_gpu_{k}_delta"`. -/
def gpuKey (stage k : String) : String := stage ++ "_memory_gpu_" ++ k ++ "_delta"

/-- The body of the per-stage loop of `update_metrics` (one iteration of
`for stage in stages`): for `k` in `["alloc", "peaked"]`, if the stage has
a cpu snapshot write the cpu delta key, and likewise for gpu.  The inner
`k in self.cpu[stage]` test is always true because snapshot dicts always
carry both keys (they are `Snapshot` fields here). -/
def emitStage (cpu gpu : List (Option String × Snapshot)) (stage : String)
    (m : Metrics) : Metrics :=
  let m1 := match getKey? cpu (some stage) with
    | some snap => setKey m (cpuKey stage "alloc") snap.alloc
    | none => m
  let m2 := match getKey? gpu (some stage) with
    | some snap => setKey m1 (gpuKey stage "alloc") snap.alloc
    | none => m1
  let m3 := match getKey? cpu (some stage) with
    | some snap => setKey m2 (cpuKey stage "peaked") snap.peaked
    | none => m2
  match getKey? gpu (some stage) with
  | some snap => setKey m3 (gpuKey stage "peaked") snap.peaked
  | none => m3

/-- `MemoryTracker.update_metrics`: after the skip and stage-gating
guards, the list of stages to emit is `[stage]`, with `"init"` prepended
(and `init_reported` set) on the first reporting call; the per-stage loop
writes the delta keys; finally, when the first emitted stage is `"init"`,
the two `before_init` baselines are written from `self.cpu["init"]` and
`self.gpu["init"]` — raising `KeyError` when no init snapshot exists. -/
def MemoryTracker.update_metrics (t : MemoryTracker) (stage : String) (m : Metrics) :
    MemoryTracker × Metrics × Option PyErr :=
  if t.skip_memory_metrics then (t, m, none) else
  match t.st with
  | none => (t, m, some (PyErr.attributeError "cur_stage"))
  | some st =>
    if st.cur_stage ≠ none ∧ st.cur_stage ≠ some stage then (t, m, none)
    else
      let stagesL : List String := if st.init_reported then [stage] else ["init", stage]
      let st1 := if st.init_reported then st else { st with init_reported := true }
      let t1 := { t with st := some st1 }
      let m1 := stagesL.foldl (fun mm es => emitStage st.cpu st.gpu es mm) m
      if stagesL.head? = some "init" then
        match getKey? st.cpu (some "init") with
        | none => (t1, m1, some (PyErr.keyError "init"))
        | some ci =>
          let m2 := setKey m1 "before_init_memory_cpu" ci.begin
          match getKey? st.gpu (some "init") with
          | none => (t1, m2, some (PyErr.keyError "init"))
          | some gi => (t1, setKey m2 "before_init_memory_gpu" gi.begin, none)
      else (t1, m1, none)

/-- `MemoryTracker.stop_and_update_metrics`: skip guard, resolve the stage
via `derive_stage` (a raised `AssertionError` propagates), `stop`, then
`update_metrics` when a metrics dict was supplied. -/
def MemoryTracker.stop_and_update_metrics (t : MemoryTracker) (caller : String)
    (env : StopEnv) (metrics : Option Metrics) :
    MemoryTracker × Option Metrics × Option PyErr :=
  if t.skip_memory_metrics then (t, metrics, none) else
  match MemoryTracker.derive_stage caller with
  | Except.error e => (t, metrics, some e)
  | Except.ok stage =>
    match MemoryTracker.stop t stage env with
    | (t1, some e) => (t1, metrics, some e)
    | (t1, none) =>
      match metrics with
      | none => (t1, none, none)
      | some m =>
        let r := MemoryTracker.update_metrics t1 stage m
        (r.1, some r.2.1, r.2.2)

/-- The per-stage write loop of `update_metrics` (`for stage in stages`),
as a fold of `emitStage` over the list of stages to emit. -/
def writeStages (cpu gpu : List (Option String × Snapshot)) (L : List String)
    (m : Metrics) : Metrics :=
  L.foldl (fun mm es => emitStage cpu gpu es mm) m

/-- The stored cpu snapshot for a stage key, read through the tracker. -/
def MemoryTracker.cpuSnap (t : MemoryTracker) (k : Option String) : Option Snapshot :=
  t.st.bind fun st => getKey? st.cpu k

/-- The stored gpu snapshot for a stage key, read through the tracker. -/
def MemoryTracker.gpuSnap (t : MemoryTracker) (k : Option String) : Option Snapshot :=
  t.st.bind fun st => getKey? st.gpu k

/-- Lookup after assignment: the assigned key reads back the new value,
any other key is unaffected. -/
theorem getKey?_setKey {α β : Type} [DecidableEq α] (m : List (α × β)) (k : α) (v : β)
    (key : α) : getKey? (setKey m k v) key = if key = k then some v else getKey? m key := by
  induction m with
  | nil => by_cases h : key = k <;> simp [setKey, getKey?, h]
  | cons hd tl ih =>
    obtain ⟨k', v'⟩ := hd
    by_cases h1 : k' = k <;> by_cases h2 : key = k <;> by_cases h3 : key = k' <;>
      simp_all [setKey, getKey?]

/-- C7: `derive_stage` returns exactly the bindings of the fixed caller
table `{"__init__"→"init", "train"→"train", "evaluate"→"eval",
"predict"→"test", "test_MemoryTracker"→"init"}` and raises
`AssertionError` precisely on callers outside the table. -/
theorem derive_stage_table :
    MemoryTracker.derive_stage "__init__" = Except.ok "init" ∧
    MemoryTracker.derive_stage "train" = Except.ok "train" ∧
    MemoryTracker.derive_stage "evaluate" = Except.ok "eval" ∧
    MemoryTracker.derive_stage "predict" = Except.ok "test" ∧
    MemoryTracker.derive_stage "test_MemoryTracker" = Except.ok "init" ∧
    ∀ c : String, MemoryTracker.derive_stage c = Except.error PyErr.assertionError ↔
      c ∉ ["__init__", "train", "evaluate", "predict", "test_MemoryTracker"] := by
  refine ⟨rfl, rfl, rfl, rfl, rfl, ?_⟩
  intro c
  by_cases h1 : c = "__init__" <;> by_cases h2 : c = "train" <;>
    by_cases h3 : c = "evaluate" <;> by_cases h4 : c = "predict" <;>
    by_cases h5 : c = "test_MemoryTracker" <;>
    simp_all [MemoryTracker.derive_stage, MemoryTracker.stages, getKey?]

theorem derive_stage_table_witness :
    MemoryTracker.derive_stage "forward" = Except.error PyErr.assertionError :=
  (derive_stage_table.2.2.2.2.2 "forward").mpr (by decide)

/-- C5: `stop(s2)` while a different stage `s1` is open returns with the
tracker object completely unchanged: no snapshot is created, existing
snapshots are untouched, and `s1` stays the open stage. -/
theorem stop_mismatch_noop (t : MemoryTracker) (st : TrackState) (s1 s2 : String)
    (env : StopEnv) (ht : t.st = some st) (hcur : st.cur_stage = some s1) (hne : s2 ≠ s1) :
    t.stop s2 env = (t, none) := by
  have h : s1 ≠ s2 := fun h => hne h.symm
  simp [MemoryTracker.stop, ht, hcur, h]

theorem stop_mismatch_noop_witness :
    MemoryTracker.stop ⟨false, some ⟨[], [], some "train", false⟩,
      none, none, none, none, none, none, none⟩ "eval" ⟨0, 0, 0⟩ =
    (⟨false, some ⟨[], [], some "train", false⟩,
      none, none, none, none, none, none, none⟩, none) :=
  stop_mismatch_noop _ ⟨[], [], some "train", false⟩ "train" "eval" ⟨0, 0, 0⟩ rfl rfl
    (by decide)

/-- C3 (amended): with `skip_memory_metrics = True`, construction allocates
no tracking state, and `start`, `update_metrics` and
`stop_and_update_metrics` are no-ops that leave the metrics mapping
unchanged; but `stop` has no skip guard — reading the never-allocated
`cur_stage` attribute raises `AttributeError` (state still unchanged). -/
theorem skip_tracker_behavior (caller stage : String) (e1 : StartEnv) (e2 : StopEnv)
    (m : Metrics) (mo : Option Metrics) :
    (MemoryTracker.init true).st = none ∧
    (MemoryTracker.init true).start caller e1 = (MemoryTracker.init true, none) ∧
    (MemoryTracker.init true).update_metrics stage m = (MemoryTracker.init true, m, none) ∧
    (MemoryTracker.init true).stop_and_update_metrics caller e2 mo =
      (MemoryTracker.init true, mo, none) ∧
    (MemoryTracker.init true).stop stage e2 =
      (MemoryTracker.init true, some (PyErr.attributeError "cur_stage")) :=
  ⟨rfl, rfl, rfl, rfl, rfl⟩

/-- C3 counterexample: on a skipping tracker, a direct `stop` call is not
an error-free no-op — it raises `AttributeError`. -/
theorem skip_tracker_stop_error :
    ((MemoryTracker.init true).stop "train" ⟨0, 0, 0⟩).2 =
      some (PyErr.attributeError "cur_stage") := rfl

/-- C4 counterexample: a second `start` for the same stage is not a no-op:
it re-takes the begin snapshots, so the tracker state differs from the
state after a single `start`. -/
theorem start_twice_changes_state :
    ((((MemoryTracker.init false).start "train" ⟨0, 200⟩).1).start "train" ⟨0, 400⟩).1 ≠
      (((MemoryTracker.init false).start "train" ⟨0, 200⟩)).1 := by decide

/-- C4 (amended): when the open stage equals the stage the caller resolves
to, `start` runs its whole body again — overwriting the begin snapshots
with fresh readings and re-arming the sampler (the early return only
fires when a *different* stage is open). -/
theorem start_same_stage_reruns (t : MemoryTracker) (st : TrackState) (caller s : String)
    (env : StartEnv) (hskip : t.skip_memory_metrics = false) (ht : t.st = some st)
    (hcur : st.cur_stage = some s) (hc : MemoryTracker.derive_stage caller = Except.ok s) :
    t.start caller env =
      ({ t with
          st := some { st with cur_stage := some s },
          gpu_memory_used_at_start := some env.gpu_memory_allocated,
          cpu_memory_used_at_start := some env.cpu_rss,
          peak_monitoring := some true }, none) := by
  simp [MemoryTracker.start, hskip, ht, hcur, hc]

theorem start_same_stage_reruns_witness :
    MemoryTracker.start ⟨false, some ⟨[], [], some "train", false⟩,
      some 1, some 2, some true, none, none, none, none⟩ "train" ⟨5, 6⟩ =
    (⟨false, some ⟨[], [], some "train", false⟩,
      some 5, some 6, some true, none, none, none, none⟩, none) :=
  start_same_stage_reruns _ ⟨[], [], some "train", false⟩ "train" "train" ⟨5, 6⟩
    rfl rfl rfl rfl

/-- C2 counterexample: after a completed train cycle (`cur_stage` is
absent), calling `stop("eval")` is not a no-op — it modifies the tracker
(snapshots keyed by the absent stage are stored). -/
theorem stop_idle_modifies :
    (((((MemoryTracker.init false).start "train" ⟨10, 100⟩).1.run_sampler [150]).stop
        "train" ⟨20, 30, 120⟩).1.stop "eval" ⟨1, 2, 3⟩).1 ≠
      ((((MemoryTracker.init false).start "train" ⟨10, 100⟩).1.run_sampler [150]).stop
        "train" ⟨20, 30, 120⟩).1 := by decide

/-- C2 (amended): `stop(s)` with no open stage is not a no-op.  The guard
only returns early when a *different* stage is open; with `cur_stage`
absent the body runs, storing CPU and accelerator snapshots under the
absent (`None`) stage key from the stale begin attributes and the last
sampler peak (and it would raise `AttributeError` had `start` never run). -/
theorem stop_idle_records_none_key (t : MemoryTracker) (st : TrackState) (stage : String)
    (env : StopEnv) (gb cb cp : Int) (ht : t.st = some st) (hcur : st.cur_stage = none)
    (hgb : t.gpu_memory_used_at_start = some gb) (hcb : t.cpu_memory_used_at_start = some cb)
    (hcp : t.cpu_memory_used_peak = some cp) :
    t.stop stage env =
      ({ t with
          st := some { st with
                        gpu := setKey st.gpu none
                          { begin := gb, end_ := env.gpu_memory_allocated,
                            alloc := env.gpu_memory_allocated - gb,
                            peaked := max 0 (env.gpu_max_memory_allocated - env.gpu_memory_allocated) },
                        cpu := setKey st.cpu none
                          { begin := cb, end_ := env.cpu_rss,
                            alloc := env.cpu_rss - cb,
                            peaked := max 0 (cp - env.cpu_rss) },
                        cur_stage := none },
          peak_monitoring := some false,
          gpu_memory_used_now := some env.gpu_memory_allocated,
          gpu_memory_used_peak := some env.gpu_max_memory_allocated,
          cpu_memory_used_now := some env.cpu_rss }, none) := by
  simp [MemoryTracker.stop, ht, hcur, hgb, hcb, hcp]

theorem stop_idle_records_none_key_witness :
    MemoryTracker.stop ⟨false, some ⟨[], [], none, false⟩,
      some 10, some 100, some true, some 150, none, none, none⟩ "eval" ⟨1, 2, 3⟩ =
    (⟨false, some ⟨[(none, ⟨10, 1, -9, 1⟩)], [(none, ⟨100, 3, -97, 147⟩)], none, false⟩,
      some 10, some 100, some false, some 150, some 1, some 2, some 3⟩, none) := by
  have h := stop_idle_records_none_key ⟨false, some ⟨[], [], none, false⟩,
      some 10, some 100, some true, some 150, none, none, none⟩
      ⟨[], [], none, false⟩ "eval" ⟨1, 2, 3⟩ 10 100 150 rfl rfl rfl rfl rfl
  simpa using h

/-- C1: `start()` then `stop(s)` on a fresh tracker, with the sampler
observing `readings` in between, stores for stage `s` a CPU snapshot with
`alloc = end_rss - begin_rss` and `peaked = max 0 (peak - end_rss)` where
`peak` is the sampler's running maximum, and an accelerator snapshot with
the same arithmetic over the accelerator begin/end/peak readings. -/
theorem start_stop_snapshot_arith (caller s : String) (e1 : StartEnv) (readings : List Int)
    (e2 : StopEnv) (hc : MemoryTracker.derive_stage caller = Except.ok s) :
    (((MemoryTracker.init false).start caller e1).2 = none) ∧
    ((((MemoryTracker.init false).start caller e1).1.run_sampler readings).stop s e2).2 = none ∧
    ((((MemoryTracker.init false).start caller e1).1.run_sampler readings).stop s e2).1.cpuSnap
        (some s) =
      some { begin := e1.cpu_rss, end_ := e2.cpu_rss,
             alloc := e2.cpu_rss - e1.cpu_rss,
             peaked := max 0 (readings.foldl (fun peak r => max r peak) (-1) - e2.cpu_rss) } ∧
    ((((MemoryTracker.init false).start caller e1).1.run_sampler readings).stop s e2).1.gpuSnap
        (some s) =
      some { begin := e1.gpu_memory_allocated, end_ := e2.gpu_memory_allocated,
             alloc := e2.gpu_memory_allocated - e1.gpu_memory_allocated,
             peaked := max 0 (e2.gpu_max_memory_allocated - e2.gpu_memory_allocated) } := by
  simp [MemoryTracker.init, MemoryTracker.start, hc, MemoryTracker.run_sampler,
    MemoryTracker.stop, MemoryTracker.cpuSnap, MemoryTracker.gpuSnap, getKey?, setKey]

/-- C1 witness, the spec's end-to-end scenario: begin 1,000,000,000, peak
1,800,000,000, end 1,500,000,000 ⇒ alloc 500,000,000, peaked 300,000,000. -/
theorem start_stop_snapshot_train :
    ((((MemoryTracker.init false).start "train" ⟨0, 1000000000⟩).1.run_sampler
        [1800000000]).stop "train" ⟨0, 0, 1500000000⟩).1.cpuSnap (some "train") =
      some { begin := 1000000000, end_ := 1500000000,
             alloc := 500000000, peaked := 300000000 } := by
  have h := start_stop_snapshot_arith "train" "train" ⟨0, 1000000000⟩ [1800000000]
    ⟨0, 0, 1500000000⟩ rfl
  simpa using h.2.2.1

/-- Invariant of the sampling loop, from any intermediate state: a run
that exits did so at the first false flag check at or after its starting
index, never decreased the maintained peak, covers every reading it took,
and the final peak is the starting value or one of the readings taken. -/
theorem peak_monitor_spec_aux (readings : Nat → Int) (flag : Nat → Bool) :
    ∀ (fuel : Nat) (peak : Int) (i n : Nat) (p : Int),
      peak_monitor_function readings flag fuel peak i = some (n, p) →
      i ≤ n ∧ flag n = false ∧ (∀ m, i ≤ m → m < n → flag m = true) ∧
      peak ≤ p ∧ (∀ m, i ≤ m → m ≤ n → readings m ≤ p) ∧
      (p = peak ∨ ∃ m, i ≤ m ∧ m ≤ n ∧ p = readings m) := by
  intro fuel
  induction fuel with
  | zero => intro peak i n p h; simp [peak_monitor_function] at h
  | succ fuel ih =>
    intro peak i n p h
    simp only [peak_monitor_function] at h
    by_cases hf : flag i
    · rw [if_pos hf] at h
      obtain ⟨h1, h2, h3, h4, h5, h6⟩ := ih _ _ _ _ h
      refine ⟨by omega, h2, ?_, ?_, ?_, ?_⟩
      · intro m hm1 hm2
        rcases Nat.eq_or_lt_of_le hm1 with rfl | hlt
        · exact hf
        · exact h3 m hlt hm2
      · exact le_trans (le_max_right _ _) h4
      · intro m hm1 hm2
        rcases Nat.eq_or_lt_of_le hm1 with rfl | hlt
        · exact le_trans (le_max_left _ _) h4
        · exact h5 m hlt hm2
      · rcases h6 with h6 | ⟨m, hm1, hm2, hm3⟩
        · rcases max_choice (readings i) peak with hc | hc
          · exact Or.inr ⟨i, le_refl i, by omega, by rw [h6, hc]⟩
          · exact Or.inl (by rw [h6, hc])
        · exact Or.inr ⟨m, by omega, hm2, hm3⟩
    · rw [if_neg hf] at h
      have hin : i = n ∧ max (readings i) peak = p := by
        have h' := Option.some.inj h
        exact ⟨congrArg Prod.fst h', congrArg Prod.snd h'⟩
      obtain ⟨rfl, hp⟩ := hin
      refine ⟨le_refl i, by simpa using hf, by omega, ?_, ?_, ?_⟩
      · exact hp ▸ le_max_right _ _
      · intro m hm1 hm2
        have : m = i := by omega
        subst this
        exact hp ▸ le_max_left _ _
      · rcases max_choice (readings i) peak with hc | hc
        · exact Or.inr ⟨i, le_refl i, le_refl i, by rw [← hp, hc]⟩
        · exact Or.inl (by rw [← hp, hc])

/-- C9: over the sequential model of the sampler loop, an exiting run
stopped at the first flag check observing false (so flipping the flag
causes at most one further reading, and reading index 0 is always taken),
the final peak bounds every reading taken and — for non-negative
resident-set readings — equals one of them (hence their maximum), and the
maintained peak never decreases from any intermediate state to the exit. -/
theorem peak_monitor_loop_spec (readings : Nat → Int) (flag : Nat → Bool) (fuel n : Nat)
    (p : Int) (hrun : peak_monitor_function readings flag fuel (-1) 0 = some (n, p))
    (hnn : ∀ i, 0 ≤ readings i) :
    flag n = false ∧ (∀ m, m < n → flag m = true) ∧
    (∀ i, i ≤ n → readings i ≤ p) ∧ (∃ i, i ≤ n ∧ p = readings i) ∧
    (∀ (fuel2 : Nat) (peak : Int) (i n2 : Nat) (p2 : Int),
      peak_monitor_function readings flag fuel2 peak i = some (n2, p2) → peak ≤ p2) := by
  obtain ⟨h1, h2, h3, h4, h5, h6⟩ := peak_monitor_spec_aux readings flag fuel (-1) 0 n p hrun
  refine ⟨h2, fun m hm => h3 m (Nat.zero_le m) hm, fun i hi => h5 i (Nat.zero_le i) hi, ?_, ?_⟩
  · rcases h6 with h6 | ⟨m, _, hm2, hm3⟩
    · exfalso
      have hr := h5 0 (Nat.zero_le 0) (Nat.zero_le n)
      have h0 := hnn 0
      omega
    · exact ⟨m, hm2, hm3⟩
  · intro fuel2 peak i n2 p2 hr
    exact (peak_monitor_spec_aux readings flag fuel2 peak i n2 p2 hr).2.2.2.1

theorem peak_monitor_loop_spec_witness :
    (fun i : Nat => decide (i = 0)) 1 = false :=
  (peak_monitor_loop_spec (fun _ => 7) (fun i => decide (i = 0)) 5 1 7 (by decide)
    (by intro i; norm_num)).1

theorem cpuKey_alloc (s : String) : cpuKey s "alloc" = s ++ "_memory_cpu_alloc_delta" := by
  apply String.ext
  simp only [cpuKey, String.data_append, List.append_assoc]
  exact congrArg (fun l => s.data ++ l) (by decide)

theorem cpuKey_peaked (s : String) : cpuKey s "peaked" = s ++ "_memory_cpu_peaked_delta" := by
  apply String.ext
  simp only [cpuKey, String.data_append, List.append_assoc]
  exact congrArg (fun l => s.data ++ l) (by decide)

theorem gpuKey_alloc (s : String) : gpuKey s "alloc" = s ++ "_memory_gpu_alloc_delta" := by
  apply String.ext
  simp only [gpuKey, String.data_append, List.append_assoc]
  exact congrArg (fun l => s.data ++ l) (by decide)

theorem gpuKey_peaked (s : String) : gpuKey s "peaked" = s ++ "_memory_gpu_peaked_delta" := by
  apply String.ext
  simp only [gpuKey, String.data_append, List.append_assoc]
  exact congrArg (fun l => s.data ++ l) (by decide)

/-- When two appends agree, the two appended tails are comparable as
suffixes of the common result. -/
theorem append_eq_suffix_cases {s1 s2 t1 t2 : String} (h : s1 ++ t1 = s2 ++ t2) :
    t1.data <:+ t2.data ∨ t2.data <:+ t1.data := by
  have hd : s1.data ++ t1.data = s2.data ++ t2.data := by
    have h' := congrArg String.data h
    simpa [String.data_append] using h'
  have h1 : t1.data <:+ s2.data ++ t2.data := hd ▸ List.suffix_append s1.data t1.data
  have h2 : t2.data <:+ s2.data ++ t2.data := List.suffix_append _ _
  exact List.suffix_or_suffix_of_suffix h1 h2

/-- Two appends with suffix-incomparable tails are distinct. -/
theorem append_ne_of_suffix_ne {t1 t2 : String} (hne : ¬ t1.data <:+ t2.data)
    (hne' : ¬ t2.data <:+ t1.data) (s1 s2 : String) : s1 ++ t1 ≠ s2 ++ t2 :=
  fun h => (append_eq_suffix_cases h).elim hne hne'

/-- An append whose tail is not a suffix of a constant differs from it. -/
theorem append_ne_const {t c : String} (h : ¬ t.data <:+ c.data) (s : String) :
    s ++ t ≠ c := by
  intro he
  apply h
  have hd := congrArg String.data he
  rw [String.data_append] at hd
  exact hd ▸ List.suffix_append s.data t.data

/-- Appending the same tail is injective on the front. -/
theorem append_right_inj {s1 s2 : String} (t : String) (h : s1 ++ t = s2 ++ t) :
    s1 = s2 := by
  have hd : s1.data ++ t.data = s2.data ++ t.data := by
    have h' := congrArg String.data h
    simpa [String.data_append] using h'
  exact String.ext (List.append_cancel_right hd)

theorem cpuKey_inj_alloc {s1 s2 : String} (h : cpuKey s1 "alloc" = cpuKey s2 "alloc") :
    s1 = s2 := by
  rw [cpuKey_alloc, cpuKey_alloc] at h
  exact append_right_inj _ h

theorem cpuKey_inj_peaked {s1 s2 : String} (h : cpuKey s1 "peaked" = cpuKey s2 "peaked") :
    s1 = s2 := by
  rw [cpuKey_peaked, cpuKey_peaked] at h
  exact append_right_inj _ h

theorem gpuKey_inj_alloc {s1 s2 : String} (h : gpuKey s1 "alloc" = gpuKey s2 "alloc") :
    s1 = s2 := by
  rw [gpuKey_alloc, gpuKey_alloc] at h
  exact append_right_inj _ h

theorem gpuKey_inj_peaked {s1 s2 : String} (h : gpuKey s1 "peaked" = gpuKey s2 "peaked") :
    s1 = s2 := by
  rw [gpuKey_peaked, gpuKey_peaked] at h
  exact append_right_inj _ h

theorem cpuKey_alloc_ne_peaked (s1 s2 : String) : cpuKey s1 "alloc" ≠ cpuKey s2 "peaked" := by
  rw [cpuKey_alloc, cpuKey_peaked]
  exact append_ne_of_suffix_ne (by decide) (by decide) s1 s2

theorem gpuKey_alloc_ne_peaked (s1 s2 : String) : gpuKey s1 "alloc" ≠ gpuKey s2 "peaked" := by
  rw [gpuKey_alloc, gpuKey_peaked]
  exact append_ne_of_suffix_ne (by decide) (by decide) s1 s2

theorem cpuKey_ne_gpuKey (s1 s2 k1 k2 : String) (hk1 : k1 = "alloc" ∨ k1 = "peaked")
    (hk2 : k2 = "alloc" ∨ k2 = "peaked") : cpuKey s1 k1 ≠ gpuKey s2 k2 := by
  rcases hk1 with rfl | rfl <;> rcases hk2 with rfl | rfl
  · rw [cpuKey_alloc, gpuKey_alloc]
    exact append_ne_of_suffix_ne (by decide) (by decide) s1 s2
  · rw [cpuKey_alloc, gpuKey_peaked]
    exact append_ne_of_suffix_ne (by decide) (by decide) s1 s2
  · rw [cpuKey_peaked, gpuKey_alloc]
    exact append_ne_of_suffix_ne (by decide) (by decide) s1 s2
  · rw [cpuKey_peaked, gpuKey_peaked]
    exact append_ne_of_suffix_ne (by decide) (by decide) s1 s2

theorem cpuKey_ne_before_cpu (s k : String) (hk : k = "alloc" ∨ k = "peaked") :
    cpuKey s k ≠ "before_init_memory_cpu" := by
  rcases hk with rfl | rfl
  · rw [cpuKey_alloc]; exact append_ne_const (by decide) s
  · rw [cpuKey_peaked]; exact append_ne_const (by decide) s

theorem cpuKey_ne_before_gpu (s k : String) (hk : k = "alloc" ∨ k = "peaked") :
    cpuKey s k ≠ "before_init_memory_gpu" := by
  rcases hk with rfl | rfl
  · rw [cpuKey_alloc]; exact append_ne_const (by decide) s
  · rw [cpuKey_peaked]; exact append_ne_const (by decide) s

theorem gpuKey_ne_before_cpu (s k : String) (hk : k = "alloc" ∨ k = "peaked") :
    gpuKey s k ≠ "before_init_memory_cpu" := by
  rcases hk with rfl | rfl
  · rw [gpuKey_alloc]; exact append_ne_const (by decide) s
  · rw [gpuKey_peaked]; exact append_ne_const (by decide) s

theorem gpuKey_ne_before_gpu (s k : String) (hk : k = "alloc" ∨ k = "peaked") :
    gpuKey s k ≠ "before_init_memory_gpu" := by
  rcases hk with rfl | rfl
  · rw [gpuKey_alloc]; exact append_ne_const (by decide) s
  · rw [gpuKey_peaked]; exact append_ne_const (by decide) s

/-- Full characterization of one per-stage loop iteration: a lookup in the
written metrics peels the (up to four) conditional writes in reverse
order. -/
theorem getKey?_emitStage (cpu gpu : List (Option String × Snapshot)) (es : String)
    (m : Metrics) (key : String) :
    getKey? (emitStage cpu gpu es m) key =
      match getKey? cpu (some es), getKey? gpu (some es) with
      | some c, some g =>
        if key = gpuKey es "peaked" then some g.peaked
        else if key = cpuKey es "peaked" then some c.peaked
        else if key = gpuKey es "alloc" then some g.alloc
        else if key = cpuKey es "alloc" then some c.alloc
        else getKey? m key
      | some c, none =>
        if key = cpuKey es "peaked" then some c.peaked
        else if key = cpuKey es "alloc" then some c.alloc
        else getKey? m key
      | none, some g =>
        if key = gpuKey es "peaked" then some g.peaked
        else if key = gpuKey es "alloc" then some g.alloc
        else getKey? m key
      | none, none => getKey? m key := by
  cases hc : getKey? cpu (some es) <;> cases hg : getKey? gpu (some es) <;>
    simp [emitStage, hc, hg, getKey?_setKey]

theorem emit_lookup_cpu_alloc (cpu gpu : List (Option String × Snapshot)) (es : String)
    (m : Metrics) (c : Snapshot) (hc : getKey? cpu (some es) = some c) :
    getKey? (emitStage cpu gpu es m) (cpuKey es "alloc") = some c.alloc := by
  rw [getKey?_emitStage, hc]
  cases hg : getKey? gpu (some es) <;>
    simp [cpuKey_ne_gpuKey es es "alloc" "peaked" (Or.inl rfl) (Or.inr rfl),
      cpuKey_ne_gpuKey es es "alloc" "alloc" (Or.inl rfl) (Or.inl rfl),
      cpuKey_alloc_ne_peaked es es]

theorem emit_lookup_cpu_peaked (cpu gpu : List (Option String × Snapshot)) (es : String)
    (m : Metrics) (c : Snapshot) (hc : getKey? cpu (some es) = some c) :
    getKey? (emitStage cpu gpu es m) (cpuKey es "peaked") = some c.peaked := by
  rw [getKey?_emitStage, hc]
  cases hg : getKey? gpu (some es) <;>
    simp [cpuKey_ne_gpuKey es es "peaked" "peaked" (Or.inr rfl) (Or.inr rfl)]

theorem emit_lookup_gpu_alloc (cpu gpu : List (Option String × Snapshot)) (es : String)
    (m : Metrics) (g : Snapshot) (hg : getKey? gpu (some es) = some g) :
    getKey? (emitStage cpu gpu es m) (gpuKey es "alloc") = some g.alloc := by
  rw [getKey?_emitStage, hg]
  cases hc : getKey? cpu (some es) <;>
    simp [gpuKey_alloc_ne_peaked es es,
      (cpuKey_ne_gpuKey es es "peaked" "alloc" (Or.inr rfl) (Or.inl rfl)).symm]

theorem emit_lookup_gpu_peaked (cpu gpu : List (Option String × Snapshot)) (es : String)
    (m : Metrics) (g : Snapshot) (hg : getKey? gpu (some es) = some g) :
    getKey? (emitStage cpu gpu es m) (gpuKey es "peaked") = some g.peaked := by
  rw [getKey?_emitStage, hg]
  cases hc : getKey? cpu (some es) <;> simp

theorem emit_lookup_cpu_none (cpu gpu : List (Option String × Snapshot)) (es : String)
    (m : Metrics) (k : String) (hk : k = "alloc" ∨ k = "peaked")
    (hc : getKey? cpu (some es) = none) :
    getKey? (emitStage cpu gpu es m) (cpuKey es k) = getKey? m (cpuKey es k) := by
  rw [getKey?_emitStage, hc]
  cases hg : getKey? gpu (some es) <;>
    simp [cpuKey_ne_gpuKey es es k "peaked" hk (Or.inr rfl),
      cpuKey_ne_gpuKey es es k "alloc" hk (Or.inl rfl)]

theorem emit_lookup_gpu_none (cpu gpu : List (Option String × Snapshot)) (es : String)
    (m : Metrics) (k : String) (hk : k = "alloc" ∨ k = "peaked")
    (hg : getKey? gpu (some es) = none) :
    getKey? (emitStage cpu gpu es m) (gpuKey es k) = getKey? m (gpuKey es k) := by
  rw [getKey?_emitStage, hg]
  cases hc : getKey? cpu (some es) <;>
    simp [(cpuKey_ne_gpuKey es es "peaked" k (Or.inr rfl) hk).symm,
      (cpuKey_ne_gpuKey es es "alloc" k (Or.inl rfl) hk).symm]

theorem emit_lookup_other (cpu gpu : List (Option String × Snapshot)) (es : String)
    (m : Metrics) (key : String) (h1 : key ≠ cpuKey es "alloc") (h2 : key ≠ cpuKey es "peaked")
    (h3 : key ≠ gpuKey es "alloc") (h4 : key ≠ gpuKey es "peaked") :
    getKey? (emitStage cpu gpu es m) key = getKey? m key := by
  rw [getKey?_emitStage]
  cases hc : getKey? cpu (some es) <;> cases hg : getKey? gpu (some es) <;>
    simp [h1, h2, h3, h4]

/-- `update_metrics` on a reporting-done tracker (`init_reported` true)
with a stage other than `"init"`: exactly one per-stage iteration runs and
no baseline write happens. -/
theorem update_metrics_rep (t : MemoryTracker) (st : TrackState) (stage : String)
    (m : Metrics) (hskip : t.skip_memory_metrics = false) (ht : t.st = some st)
    (hg : st.cur_stage = none ∨ st.cur_stage = some stage)
    (hrep : st.init_reported = true) (hs : stage ≠ "init") :
    t.update_metrics stage m =
      ({ t with st := some st }, emitStage st.cpu st.gpu stage m, none) := by
  rcases hg with h | h <;>
    simp [MemoryTracker.update_metrics, hskip, ht, h, hrep, List.foldl, hs]

/-- `update_metrics` on the first reporting call with an init snapshot in
both mappings: `"init"` is emitted first, then the requested stage, then
the two baselines; `init_reported` flips to true. -/
theorem update_metrics_first (t : MemoryTracker) (st : TrackState) (stage : String)
    (m : Metrics) (ci gi : Snapshot) (hskip : t.skip_memory_metrics = false)
    (ht : t.st = some st) (hg : st.cur_stage = none ∨ st.cur_stage = some stage)
    (hrep : st.init_reported = false) (hci : getKey? st.cpu (some "init") = some ci)
    (hgi : getKey? st.gpu (some "init") = some gi) :
    t.update_metrics stage m =
      ({ t with st := some { st with init_reported := true } },
       setKey (setKey (emitStage st.cpu st.gpu stage (emitStage st.cpu st.gpu "init" m))
         "before_init_memory_cpu" ci.begin) "before_init_memory_gpu" gi.begin, none) := by
  rcases hg with h | h <;>
    simp [MemoryTracker.update_metrics, hskip, ht, h, hrep, List.foldl, hci, hgi]

/-- `update_metrics` on the first reporting call with no cpu init
snapshot: the per-stage loop still runs and `init_reported` still flips,
then the cpu baseline lookup raises `KeyError`. -/
theorem update_metrics_first_nocpu (t : MemoryTracker) (st : TrackState) (stage : String)
    (m : Metrics) (hskip : t.skip_memory_metrics = false) (ht : t.st = some st)
    (hg : st.cur_stage = none ∨ st.cur_stage = some stage)
    (hrep : st.init_reported = false) (hci : getKey? st.cpu (some "init") = none) :
    t.update_metrics stage m =
      ({ t with st := some { st with init_reported := true } },
       emitStage st.cpu st.gpu stage (emitStage st.cpu st.gpu "init" m),
       some (PyErr.keyError "init")) := by
  rcases hg with h | h <;>
    simp [MemoryTracker.update_metrics, hskip, ht, h, hrep, List.foldl, hci]

/-- `update_metrics` on the first reporting call with a cpu init snapshot
but no gpu init snapshot: the cpu baseline is written, then the gpu
baseline lookup raises `KeyError`. -/
theorem update_metrics_first_nogpu (t : MemoryTracker) (st : TrackState) (stage : String)
    (m : Metrics) (ci : Snapshot) (hskip : t.skip_memory_metrics = false)
    (ht : t.st = some st) (hg : st.cur_stage = none ∨ st.cur_stage = some stage)
    (hrep : st.init_reported = false) (hci : getKey? st.cpu (some "init") = some ci)
    (hgi : getKey? st.gpu (some "init") = none) :
    t.update_metrics stage m =
      ({ t with st := some { st with init_reported := true } },
       setKey (emitStage st.cpu st.gpu stage (emitStage st.cpu st.gpu "init" m))
         "before_init_memory_cpu" ci.begin,
       some (PyErr.keyError "init")) := by
  rcases hg with h | h <;>
    simp [MemoryTracker.update_metrics, hskip, ht, h, hrep, List.foldl, hci, hgi]

theorem writeStages_single (cpu gpu : List (Option String × Snapshot)) (a : String)
    (m : Metrics) : writeStages cpu gpu [a] m = emitStage cpu gpu a m := rfl

theorem writeStages_pair (cpu gpu : List (Option String × Snapshot)) (a b : String)
    (m : Metrics) :
    writeStages cpu gpu [a, b] m = emitStage cpu gpu b (emitStage cpu gpu a m) := rfl

/-- Keys outside every emitted stage's four delta keys are untouched by
the whole per-stage loop. -/
theorem writeStages_other (cpu gpu : List (Option String × Snapshot)) (L : List String)
    (m : Metrics) (key : String)
    (h : ∀ es ∈ L, key ≠ cpuKey es "alloc" ∧ key ≠ cpuKey es "peaked" ∧
      key ≠ gpuKey es "alloc" ∧ key ≠ gpuKey es "peaked") :
    getKey? (writeStages cpu gpu L m) key = getKey? m key := by
  induction L generalizing m with
  | nil => rfl
  | cons a L' ih =>
    obtain ⟨h1, h2, h3, h4⟩ := h a (List.mem_cons_self a L')
    have step : writeStages cpu gpu (a :: L') m =
        writeStages cpu gpu L' (emitStage cpu gpu a m) := rfl
    rw [step, ih (emitStage cpu gpu a m) (fun es hes => h es (List.mem_cons_of_mem a hes))]
    exact emit_lookup_other cpu gpu a m key h1 h2 h3 h4

/-- A stage in the emitted list with a cpu snapshot reads back its alloc
value after the loop. -/
theorem writeStages_cpu_alloc (cpu gpu : List (Option String × Snapshot)) (L : List String)
    (m : Metrics) (es : String) (c : Snapshot) (hes : es ∈ L)
    (hc : getKey? cpu (some es) = some c) :
    getKey? (writeStages cpu gpu L m) (cpuKey es "alloc") = some c.alloc := by
  induction L generalizing m with
  | nil => exact absurd hes (List.not_mem_nil es)
  | cons a L' ih =>
    have step : writeStages cpu gpu (a :: L') m =
        writeStages cpu gpu L' (emitStage cpu gpu a m) := rfl
    rw [step]
    by_cases hmem : es ∈ L'
    · exact ih (emitStage cpu gpu a m) hmem
    · have hea : es = a := by
        rcases List.mem_cons.mp hes with h | h
        · exact h
        · exact absurd h hmem
      subst hea
      rw [writeStages_other cpu gpu L' (emitStage cpu gpu es m) (cpuKey es "alloc")
        (fun b hb => ⟨fun h => hmem (cpuKey_inj_alloc h ▸ hb),
          cpuKey_alloc_ne_peaked es b,
          cpuKey_ne_gpuKey es b "alloc" "alloc" (Or.inl rfl) (Or.inl rfl),
          cpuKey_ne_gpuKey es b "alloc" "peaked" (Or.inl rfl) (Or.inr rfl)⟩)]
      exact emit_lookup_cpu_alloc cpu gpu es m c hc

theorem writeStages_cpu_peaked (cpu gpu : List (Option String × Snapshot)) (L : List String)
    (m : Metrics) (es : String) (c : Snapshot) (hes : es ∈ L)
    (hc : getKey? cpu (some es) = some c) :
    getKey? (writeStages cpu gpu L m) (cpuKey es "peaked") = some c.peaked := by
  induction L generalizing m with
  | nil => exact absurd hes (List.not_mem_nil es)
  | cons a L' ih =>
    have step : writeStages cpu gpu (a :: L') m =
        writeStages cpu gpu L' (emitStage cpu gpu a m) := rfl
    rw [step]
    by_cases hmem : es ∈ L'
    · exact ih (emitStage cpu gpu a m) hmem
    · have hea : es = a := by
        rcases List.mem_cons.mp hes with h | h
        · exact h
        · exact absurd h hmem
      subst hea
      rw [writeStages_other cpu gpu L' (emitStage cpu gpu es m) (cpuKey es "peaked")
        (fun b hb => ⟨(cpuKey_alloc_ne_peaked b es).symm,
          fun h => hmem (cpuKey_inj_peaked h ▸ hb),
          cpuKey_ne_gpuKey es b "peaked" "alloc" (Or.inr rfl) (Or.inl rfl),
          cpuKey_ne_gpuKey es b "peaked" "peaked" (Or.inr rfl) (Or.inr rfl)⟩)]
      exact emit_lookup_cpu_peaked cpu gpu es m c hc

theorem writeStages_gpu_alloc (cpu gpu : List (Option String × Snapshot)) (L : List String)
    (m : Metrics) (es : String) (g : Snapshot) (hes : es ∈ L)
    (hg : getKey? gpu (some es) = some g) :
    getKey? (writeStages cpu gpu L m) (gpuKey es "alloc") = some g.alloc := by
  induction L generalizing m with
  | nil => exact absurd hes (List.not_mem_nil es)
  | cons a L' ih =>
    have step : writeStages cpu gpu (a :: L') m =
        writeStages cpu gpu L' (emitStage cpu gpu a m) := rfl
    rw [step]
    by_cases hmem : es ∈ L'
    · exact ih (emitStage cpu gpu a m) hmem
    · have hea : es = a := by
        rcases List.mem_cons.mp hes with h | h
        · exact h
        · exact absurd h hmem
      subst hea
      rw [writeStages_other cpu gpu L' (emitStage cpu gpu es m) (gpuKey es "alloc")
        (fun b hb => ⟨(cpuKey_ne_gpuKey b es "alloc" "alloc" (Or.inl rfl) (Or.inl rfl)).symm,
          (cpuKey_ne_gpuKey b es "peaked" "alloc" (Or.inr rfl) (Or.inl rfl)).symm,
          fun h => hmem (gpuKey_inj_alloc h ▸ hb),
          gpuKey_alloc_ne_peaked es b⟩)]
      exact emit_lookup_gpu_alloc cpu gpu es m g hg

theorem writeStages_gpu_peaked (cpu gpu : List (Option String × Snapshot)) (L : List String)
    (m : Metrics) (es : String) (g : Snapshot) (hes : es ∈ L)
    (hg : getKey? gpu (some es) = some g) :
    getKey? (writeStages cpu gpu L m) (gpuKey es "peaked") = some g.peaked := by
  induction L generalizing m with
  | nil => exact absurd hes (List.not_mem_nil es)
  | cons a L' ih =>
    have step : writeStages cpu gpu (a :: L') m =
        writeStages cpu gpu L' (emitStage cpu gpu a m) := rfl
    rw [step]
    by_cases hmem : es ∈ L'
    · exact ih (emitStage cpu gpu a m) hmem
    · have hea : es = a := by
        rcases List.mem_cons.mp hes with h | h
        · exact h
        · exact absurd h hmem
      subst hea
      rw [writeStages_other cpu gpu L' (emitStage cpu gpu es m) (gpuKey es "peaked")
        (fun b hb => ⟨(cpuKey_ne_gpuKey b es "alloc" "peaked" (Or.inl rfl) (Or.inr rfl)).symm,
          (cpuKey_ne_gpuKey b es "peaked" "peaked" (Or.inr rfl) (Or.inr rfl)).symm,
          (gpuKey_alloc_ne_peaked b es).symm,
          fun h => hmem (gpuKey_inj_peaked h ▸ hb)⟩)]
      exact emit_lookup_gpu_peaked cpu gpu es m g hg

/-- A stage with no cpu snapshot has its cpu delta keys untouched by the
whole per-stage loop (no matter which stages the loop emits). -/
theorem writeStages_cpu_none (cpu gpu : List (Option String × Snapshot)) (L : List String)
    (m : Metrics) (es k : String) (hk : k = "alloc" ∨ k = "peaked")
    (hc : getKey? cpu (some es) = none) :
    getKey? (writeStages cpu gpu L m) (cpuKey es k) = getKey? m (cpuKey es k) := by
  induction L generalizing m with
  | nil => rfl
  | cons a L' ih =>
    have step : writeStages cpu gpu (a :: L') m =
        writeStages cpu gpu L' (emitStage cpu gpu a m) := rfl
    rw [step, ih (emitStage cpu gpu a m)]
    by_cases hea : a = es
    · subst hea
      exact emit_lookup_cpu_none cpu gpu a m k hk hc
    · refine emit_lookup_other cpu gpu a m (cpuKey es k) ?_ ?_ ?_ ?_
      · rcases hk with rfl | rfl
        · exact fun h => hea (cpuKey_inj_alloc h).symm
        · exact (cpuKey_alloc_ne_peaked a es).symm
      · rcases hk with rfl | rfl
        · exact cpuKey_alloc_ne_peaked es a
        · exact fun h => hea (cpuKey_inj_peaked h).symm
      · exact cpuKey_ne_gpuKey es a k "alloc" hk (Or.inl rfl)
      · exact cpuKey_ne_gpuKey es a k "peaked" hk (Or.inr rfl)

theorem writeStages_gpu_none (cpu gpu : List (Option String × Snapshot)) (L : List String)
    (m : Metrics) (es k : String) (hk : k = "alloc" ∨ k = "peaked")
    (hg : getKey? gpu (some es) = none) :
    getKey? (writeStages cpu gpu L m) (gpuKey es k) = getKey? m (gpuKey es k) := by
  induction L generalizing m with
  | nil => rfl
  | cons a L' ih =>
    have step : writeStages cpu gpu (a :: L') m =
        writeStages cpu gpu L' (emitStage cpu gpu a m) := rfl
    rw [step, ih (emitStage cpu gpu a m)]
    by_cases hea : a = es
    · subst hea
      exact emit_lookup_gpu_none cpu gpu a m k hk hg
    · refine emit_lookup_other cpu gpu a m (gpuKey es k) ?_ ?_ ?_ ?_
      · exact (cpuKey_ne_gpuKey a es "alloc" k (Or.inl rfl) hk).symm
      · exact (cpuKey_ne_gpuKey a es "peaked" k (Or.inr rfl) hk).symm
      · rcases hk with rfl | rfl
        · exact fun h => hea (gpuKey_inj_alloc h).symm
        · exact (gpuKey_alloc_ne_peaked a es).symm
      · rcases hk with rfl | rfl
        · exact gpuKey_alloc_ne_peaked es a
        · exact fun h => hea (gpuKey_inj_peaked h).symm

/-- C10: a first reporting call (gating passed, `init_reported` false) in a
state with no `"init"` snapshot in the cpu mapping — or a cpu one but no
gpu one — raises `KeyError` at the baseline lookup, after the requested
stage's delta keys were already written and `init_reported` was already
flipped: the metrics dict and tracker are left partially updated. -/
theorem update_metrics_missing_init_keyerror (t : MemoryTracker) (st : TrackState)
    (stage : String) (m : Metrics) (cs gs : Snapshot)
    (hskip : t.skip_memory_metrics = false) (ht : t.st = some st)
    (hrep : st.init_reported = false)
    (hg : st.cur_stage = none ∨ st.cur_stage = some stage)
    (hmiss : getKey? st.cpu (some "init") = none ∨
      ((getKey? st.cpu (some "init")).isSome ∧ getKey? st.gpu (some "init") = none))
    (hcs : getKey? st.cpu (some stage) = some cs)
    (hgs : getKey? st.gpu (some stage) = some gs) :
    (t.update_metrics stage m).2.2 = some (PyErr.keyError "init") ∧
    (t.update_metrics stage m).1.st = some { st with init_reported := true } ∧
    getKey? (t.update_metrics stage m).2.1 (cpuKey stage "alloc") = some cs.alloc ∧
    getKey? (t.update_metrics stage m).2.1 (cpuKey stage "peaked") = some cs.peaked ∧
    getKey? (t.update_metrics stage m).2.1 (gpuKey stage "alloc") = some gs.alloc ∧
    getKey? (t.update_metrics stage m).2.1 (gpuKey stage "peaked") = some gs.peaked := by
  rcases hmiss with hci | ⟨hsome, hgi⟩
  · rw [update_metrics_first_nocpu t st stage m hskip ht hg hrep hci,
      ← writeStages_pair st.cpu st.gpu "init" stage m]
    refine ⟨rfl, rfl, ?_, ?_, ?_, ?_⟩
    · exact writeStages_cpu_alloc st.cpu st.gpu ["init", stage] m stage cs (by simp) hcs
    · exact writeStages_cpu_peaked st.cpu st.gpu ["init", stage] m stage cs (by simp) hcs
    · exact writeStages_gpu_alloc st.cpu st.gpu ["init", stage] m stage gs (by simp) hgs
    · exact writeStages_gpu_peaked st.cpu st.gpu ["init", stage] m stage gs (by simp) hgs
  · obtain ⟨ci, hci⟩ := Option.isSome_iff_exists.mp hsome
    rw [update_metrics_first_nogpu t st stage m ci hskip ht hg hrep hci hgi,
      ← writeStages_pair st.cpu st.gpu "init" stage m]
    refine ⟨rfl, rfl, ?_, ?_, ?_, ?_⟩
    · rw [getKey?_setKey, if_neg (cpuKey_ne_before_cpu stage "alloc" (Or.inl rfl))]
      exact writeStages_cpu_alloc st.cpu st.gpu ["init", stage] m stage cs (by simp) hcs
    · rw [getKey?_setKey, if_neg (cpuKey_ne_before_cpu stage "peaked" (Or.inr rfl))]
      exact writeStages_cpu_peaked st.cpu st.gpu ["init", stage] m stage cs (by simp) hcs
    · rw [getKey?_setKey, if_neg (gpuKey_ne_before_cpu stage "alloc" (Or.inl rfl))]
      exact writeStages_gpu_alloc st.cpu st.gpu ["init", stage] m stage gs (by simp) hgs
    · rw [getKey?_setKey, if_neg (gpuKey_ne_before_cpu stage "peaked" (Or.inr rfl))]
      exact writeStages_gpu_peaked st.cpu st.gpu ["init", stage] m stage gs (by simp) hgs

theorem update_metrics_missing_init_keyerror_witness :
    (MemoryTracker.update_metrics
        ⟨false, some ⟨[(some "train", ⟨1, 2, 3, 4⟩)], [(some "train", ⟨5, 6, 7, 8⟩)],
          none, false⟩, none, none, none, none, none, none, none⟩ "train" []).2.2 =
      some (PyErr.keyError "init") ∧
    getKey? ((MemoryTracker.update_metrics
        ⟨false, some ⟨[(some "train", ⟨1, 2, 3, 4⟩)], [(some "train", ⟨5, 6, 7, 8⟩)],
          none, false⟩, none, none, none, none, none, none, none⟩ "train" []).2.1)
      (cpuKey "train" "alloc") = some 7 := by
  have h := update_metrics_missing_init_keyerror
    ⟨false, some ⟨[(some "train", ⟨1, 2, 3, 4⟩)], [(some "train", ⟨5, 6, 7, 8⟩)],
      none, false⟩, none, none, none, none, none, none, none⟩
    ⟨[(some "train", ⟨1, 2, 3, 4⟩)], [(some "train", ⟨5, 6, 7, 8⟩)], none, false⟩
    "train" [] ⟨5, 6, 7, 8⟩ ⟨1, 2, 3, 4⟩ rfl rfl rfl (Or.inl rfl)
    (Or.inl (by decide)) (by decide) (by decide)
  exact ⟨h.1, h.2.2.1⟩

/-- C6 counterexample: init keys can be written again after the first
reporting call — a later `update_metrics("init", metrics)` overwrites
`before_init_memory_cpu` (here from 999 back to the stored begin 5) even
though `init_reported` is already true. -/
theorem update_metrics_init_written_again :
    getKey? ((MemoryTracker.update_metrics
        ⟨false, some ⟨[(some "init", ⟨7, 0, 0, 0⟩)], [(some "init", ⟨5, 0, 0, 0⟩)],
          none, true⟩, none, none, none, none, none, none, none⟩ "init"
        [("before_init_memory_cpu", 999)]).2.1) "before_init_memory_cpu" = some 5 := by
  decide

/-- C6 (amended): on the first gating-passing `update_metrics` call the
emitted stage list is `["init", stage]` — given init snapshots in both
mappings, the init delta keys, both `before_init` baselines and the
requested stage's keys are all written and `init_reported` flips to true;
afterwards, a call for a stage *other than* `"init"` never writes an
init-prefixed or `before_init` key again (a later call for `"init"` itself
does write them again, see the counterexample). -/
theorem update_metrics_init_gating (t : MemoryTracker) (st : TrackState) (stage : String)
    (m : Metrics) (hskip : t.skip_memory_metrics = false) (ht : t.st = some st)
    (hg : st.cur_stage = none ∨ st.cur_stage = some stage) :
    (∀ ci gi cs gs : Snapshot, st.init_reported = false →
      getKey? st.cpu (some "init") = some ci → getKey? st.gpu (some "init") = some gi →
      getKey? st.cpu (some stage) = some cs → getKey? st.gpu (some stage) = some gs →
      (t.update_metrics stage m).2.2 = none ∧
      (t.update_metrics stage m).1.st = some { st with init_reported := true } ∧
      getKey? (t.update_metrics stage m).2.1 "before_init_memory_cpu" = some ci.begin ∧
      getKey? (t.update_metrics stage m).2.1 "before_init_memory_gpu" = some gi.begin ∧
      getKey? (t.update_metrics stage m).2.1 (cpuKey "init" "alloc") = some ci.alloc ∧
      getKey? (t.update_metrics stage m).2.1 (cpuKey "init" "peaked") = some ci.peaked ∧
      getKey? (t.update_metrics stage m).2.1 (gpuKey "init" "alloc") = some gi.alloc ∧
      getKey? (t.update_metrics stage m).2.1 (gpuKey "init" "peaked") = some gi.peaked ∧
      getKey? (t.update_metrics stage m).2.1 (cpuKey stage "alloc") = some cs.alloc ∧
      getKey? (t.update_metrics stage m).2.1 (cpuKey stage "peaked") = some cs.peaked ∧
      getKey? (t.update_metrics stage m).2.1 (gpuKey stage "alloc") = some gs.alloc ∧
      getKey? (t.update_metrics stage m).2.1 (gpuKey stage "peaked") = some gs.peaked) ∧
    (st.init_reported = true → stage ≠ "init" →
      (t.update_metrics stage m).2.2 = none ∧
      getKey? (t.update_metrics stage m).2.1 "before_init_memory_cpu" =
        getKey? m "before_init_memory_cpu" ∧
      getKey? (t.update_metrics stage m).2.1 "before_init_memory_gpu" =
        getKey? m "before_init_memory_gpu" ∧
      getKey? (t.update_metrics stage m).2.1 (cpuKey "init" "alloc") =
        getKey? m (cpuKey "init" "alloc") ∧
      getKey? (t.update_metrics stage m).2.1 (cpuKey "init" "peaked") =
        getKey? m (cpuKey "init" "peaked") ∧
      getKey? (t.update_metrics stage m).2.1 (gpuKey "init" "alloc") =
        getKey? m (gpuKey "init" "alloc") ∧
      getKey? (t.update_metrics stage m).2.1 (gpuKey "init" "peaked") =
        getKey? m (gpuKey "init" "peaked")) := by
  constructor
  · intro ci gi cs gs hrep hci hgi hcs hgs
    rw [update_metrics_first t st stage m ci gi hskip ht hg hrep hci hgi,
      ← writeStages_pair st.cpu st.gpu "init" stage m]
    refine ⟨rfl, rfl, ?_, ?_, ?_, ?_, ?_, ?_, ?_, ?_, ?_, ?_⟩
    · rw [getKey?_setKey,
        if_neg (show "before_init_memory_cpu" ≠ "before_init_memory_gpu" by decide),
        getKey?_setKey, if_pos rfl]
    · rw [getKey?_setKey, if_pos rfl]
    · rw [getKey?_setKey, if_neg (cpuKey_ne_before_gpu "init" "alloc" (Or.inl rfl)),
        getKey?_setKey, if_neg (cpuKey_ne_before_cpu "init" "alloc" (Or.inl rfl))]
      exact writeStages_cpu_alloc st.cpu st.gpu ["init", stage] m "init" ci (by simp) hci
    · rw [getKey?_setKey, if_neg (cpuKey_ne_before_gpu "init" "peaked" (Or.inr rfl)),
        getKey?_setKey, if_neg (cpuKey_ne_before_cpu "init" "peaked" (Or.inr rfl))]
      exact writeStages_cpu_peaked st.cpu st.gpu ["init", stage] m "init" ci (by simp) hci
    · rw [getKey?_setKey, if_neg (gpuKey_ne_before_gpu "init" "alloc" (Or.inl rfl)),
        getKey?_setKey, if_neg (gpuKey_ne_before_cpu "init" "alloc" (Or.inl rfl))]
      exact writeStages_gpu_alloc st.cpu st.gpu ["init", stage] m "init" gi (by simp) hgi
    · rw [getKey?_setKey, if_neg (gpuKey_ne_before_gpu "init" "peaked" (Or.inr rfl)),
        getKey?_setKey, if_neg (gpuKey_ne_before_cpu "init" "peaked" (Or.inr rfl))]
      exact writeStages_gpu_peaked st.cpu st.gpu ["init", stage] m "init" gi (by simp) hgi
    · rw [getKey?_setKey, if_neg (cpuKey_ne_before_gpu stage "alloc" (Or.inl rfl)),
        getKey?_setKey, if_neg (cpuKey_ne_before_cpu stage "alloc" (Or.inl rfl))]
      exact writeStages_cpu_alloc st.cpu st.gpu ["init", stage] m stage cs (by simp) hcs
    · rw [getKey?_setKey, if_neg (cpuKey_ne_before_gpu stage "peaked" (Or.inr rfl)),
        getKey?_setKey, if_neg (cpuKey_ne_before_cpu stage "peaked" (Or.inr rfl))]
      exact writeStages_cpu_peaked st.cpu st.gpu ["init", stage] m stage cs (by simp) hcs
    · rw [getKey?_setKey, if_neg (gpuKey_ne_before_gpu stage "alloc" (Or.inl rfl)),
        getKey?_setKey, if_neg (gpuKey_ne_before_cpu stage "alloc" (Or.inl rfl))]
      exact writeStages_gpu_alloc st.cpu st.gpu ["init", stage] m stage gs (by simp) hgs
    · rw [getKey?_setKey, if_neg (gpuKey_ne_before_gpu stage "peaked" (Or.inr rfl)),
        getKey?_setKey, if_neg (gpuKey_ne_before_cpu stage "peaked" (Or.inr rfl))]
      exact writeStages_gpu_peaked st.cpu st.gpu ["init", stage] m stage gs (by simp) hgs
  · intro hrep hs
    rw [update_metrics_rep t st stage m hskip ht hg hrep hs,
      ← writeStages_single st.cpu st.gpu stage m]
    refine ⟨rfl, ?_, ?_, ?_, ?_, ?_, ?_⟩
    · refine writeStages_other st.cpu st.gpu [stage] m "before_init_memory_cpu" ?_
      intro es hes
      have he : es = stage := by simpa using hes
      rw [he]
      exact ⟨(cpuKey_ne_before_cpu stage "alloc" (Or.inl rfl)).symm,
        (cpuKey_ne_before_cpu stage "peaked" (Or.inr rfl)).symm,
        (gpuKey_ne_before_cpu stage "alloc" (Or.inl rfl)).symm,
        (gpuKey_ne_before_cpu stage "peaked" (Or.inr rfl)).symm⟩
    · refine writeStages_other st.cpu st.gpu [stage] m "before_init_memory_gpu" ?_
      intro es hes
      have he : es = stage := by simpa using hes
      rw [he]
      exact ⟨(cpuKey_ne_before_gpu stage "alloc" (Or.inl rfl)).symm,
        (cpuKey_ne_before_gpu stage "peaked" (Or.inr rfl)).symm,
        (gpuKey_ne_before_gpu stage "alloc" (Or.inl rfl)).symm,
        (gpuKey_ne_before_gpu stage "peaked" (Or.inr rfl)).symm⟩
    · refine writeStages_other st.cpu st.gpu [stage] m (cpuKey "init" "alloc") ?_
      intro es hes
      have he : es = stage := by simpa using hes
      rw [he]
      exact ⟨fun h => hs (cpuKey_inj_alloc h).symm,
        cpuKey_alloc_ne_peaked "init" stage,
        cpuKey_ne_gpuKey "init" stage "alloc" "alloc" (Or.inl rfl) (Or.inl rfl),
        cpuKey_ne_gpuKey "init" stage "alloc" "peaked" (Or.inl rfl) (Or.inr rfl)⟩
    · refine writeStages_other st.cpu st.gpu [stage] m (cpuKey "init" "peaked") ?_
      intro es hes
      have he : es = stage := by simpa using hes
      rw [he]
      exact ⟨(cpuKey_alloc_ne_peaked stage "init").symm,
        fun h => hs (cpuKey_inj_peaked h).symm,
        cpuKey_ne_gpuKey "init" stage "peaked" "alloc" (Or.inr rfl) (Or.inl rfl),
        cpuKey_ne_gpuKey "init" stage "peaked" "peaked" (Or.inr rfl) (Or.inr rfl)⟩
    · refine writeStages_other st.cpu st.gpu [stage] m (gpuKey "init" "alloc") ?_
      intro es hes
      have he : es = stage := by simpa using hes
      rw [he]
      exact ⟨(cpuKey_ne_gpuKey stage "init" "alloc" "alloc" (Or.inl rfl) (Or.inl rfl)).symm,
        (cpuKey_ne_gpuKey stage "init" "peaked" "alloc" (Or.inr rfl) (Or.inl rfl)).symm,
        fun h => hs (gpuKey_inj_alloc h).symm,
        gpuKey_alloc_ne_peaked "init" stage⟩
    · refine writeStages_other st.cpu st.gpu [stage] m (gpuKey "init" "peaked") ?_
      intro es hes
      have he : es = stage := by simpa using hes
      rw [he]
      exact ⟨(cpuKey_ne_gpuKey stage "init" "alloc" "peaked" (Or.inl rfl) (Or.inr rfl)).symm,
        (cpuKey_ne_gpuKey stage "init" "peaked" "peaked" (Or.inr rfl) (Or.inr rfl)).symm,
        (gpuKey_alloc_ne_peaked stage "init").symm,
        fun h => hs (gpuKey_inj_peaked h).symm⟩

theorem update_metrics_init_gating_witness :
    getKey? ((MemoryTracker.update_metrics
        ⟨false, some ⟨[(some "init", ⟨1, 2, 3, 4⟩), (some "train", ⟨5, 6, 7, 8⟩)],
          [(some "init", ⟨9, 10, 11, 12⟩), (some "train", ⟨13, 14, 15, 16⟩)], none, false⟩,
          none, none, none, none, none, none, none⟩ "train" []).2.1)
      "before_init_memory_cpu" = some 9 ∧
    getKey? ((MemoryTracker.update_metrics
        ⟨false, some ⟨[], [], none, true⟩,
          none, none, none, none, none, none, none⟩ "train" []).2.1)
      (cpuKey "init" "alloc") = none := by
  constructor
  · exact ((update_metrics_init_gating
      ⟨false, some ⟨[(some "init", ⟨1, 2, 3, 4⟩), (some "train", ⟨5, 6, 7, 8⟩)],
        [(some "init", ⟨9, 10, 11, 12⟩), (some "train", ⟨13, 14, 15, 16⟩)], none, false⟩,
        none, none, none, none, none, none, none⟩
      ⟨[(some "init", ⟨1, 2, 3, 4⟩), (some "train", ⟨5, 6, 7, 8⟩)],
        [(some "init", ⟨9, 10, 11, 12⟩), (some "train", ⟨13, 14, 15, 16⟩)], none, false⟩
      "train" [] rfl rfl (Or.inl rfl)).1 ⟨9, 10, 11, 12⟩ ⟨1, 2, 3, 4⟩
      ⟨13, 14, 15, 16⟩ ⟨5, 6, 7, 8⟩ rfl (by decide) (by decide) (by decide)
      (by decide)).2.2.1
  · have h := ((update_metrics_init_gating
      ⟨false, some ⟨[], [], none, true⟩, none, none, none, none, none, none, none⟩
      ⟨[], [], none, true⟩ "train" [] rfl rfl (Or.inl rfl)).2 rfl (by decide)).2.2.2.1
    simpa using h

/-- `update_metrics` when `init_reported` is already true and the call is
for `"init"` itself (with init snapshots present): one loop iteration for
`"init"` and both baseline writes. -/
theorem update_metrics_rep_init (t : MemoryTracker) (st : TrackState) (m : Metrics)
    (ci gi : Snapshot) (hskip : t.skip_memory_metrics = false) (ht : t.st = some st)
    (hg : st.cur_stage = none ∨ st.cur_stage = some "init")
    (hrep : st.init_reported = true) (hci : getKey? st.cpu (some "init") = some ci)
    (hgi : getKey? st.gpu (some "init") = some gi) :
    t.update_metrics "init" m =
      ({ t with st := some st },
       setKey (setKey (emitStage st.cpu st.gpu "init" m) "before_init_memory_cpu" ci.begin)
         "before_init_memory_gpu" gi.begin, none) := by
  rcases hg with h | h <;>
    simp [MemoryTracker.update_metrics, hskip, ht, h, hrep, List.foldl, hci, hgi]

/-- The four emission conjuncts for one emitted stage and kind, over the
bare per-stage loop result. -/
theorem emission_conj_plain (cpu gpu : List (Option String × Snapshot)) (L : List String)
    (m : Metrics) (es k : String) (hk : k = "alloc" ∨ k = "peaked") (hes : es ∈ L) :
    (∀ c : Snapshot, getKey? cpu (some es) = some c →
      getKey? (writeStages cpu gpu L m) (cpuKey es k) =
        some (if k = "alloc" then c.alloc else c.peaked)) ∧
    (getKey? cpu (some es) = none →
      getKey? (writeStages cpu gpu L m) (cpuKey es k) = getKey? m (cpuKey es k)) ∧
    (∀ g : Snapshot, getKey? gpu (some es) = some g →
      getKey? (writeStages cpu gpu L m) (gpuKey es k) =
        some (if k = "alloc" then g.alloc else g.peaked)) ∧
    (getKey? gpu (some es) = none →
      getKey? (writeStages cpu gpu L m) (gpuKey es k) = getKey? m (gpuKey es k)) := by
  refine ⟨?_, ?_, ?_, ?_⟩
  · intro c hc
    rcases hk with rfl | rfl
    · simpa using writeStages_cpu_alloc cpu gpu L m es c hes hc
    · simpa using writeStages_cpu_peaked cpu gpu L m es c hes hc
  · intro hc
    exact writeStages_cpu_none cpu gpu L m es k hk hc
  · intro g hgs
    rcases hk with rfl | rfl
    · simpa using writeStages_gpu_alloc cpu gpu L m es g hes hgs
    · simpa using writeStages_gpu_peaked cpu gpu L m es g hes hgs
  · intro hgs
    exact writeStages_gpu_none cpu gpu L m es k hk hgs

/-- The four emission conjuncts for one emitted stage and kind, with the
two baseline writes on top of the per-stage loop result. -/
theorem emission_conj_baseline (cpu gpu : List (Option String × Snapshot)) (L : List String)
    (m : Metrics) (x y : Int) (es k : String) (hk : k = "alloc" ∨ k = "peaked")
    (hes : es ∈ L) :
    (∀ c : Snapshot, getKey? cpu (some es) = some c →
      getKey? (setKey (setKey (writeStages cpu gpu L m) "before_init_memory_cpu" x)
          "before_init_memory_gpu" y) (cpuKey es k) =
        some (if k = "alloc" then c.alloc else c.peaked)) ∧
    (getKey? cpu (some es) = none →
      getKey? (setKey (setKey (writeStages cpu gpu L m) "before_init_memory_cpu" x)
          "before_init_memory_gpu" y) (cpuKey es k) = getKey? m (cpuKey es k)) ∧
    (∀ g : Snapshot, getKey? gpu (some es) = some g →
      getKey? (setKey (setKey (writeStages cpu gpu L m) "before_init_memory_cpu" x)
          "before_init_memory_gpu" y) (gpuKey es k) =
        some (if k = "alloc" then g.alloc else g.peaked)) ∧
    (getKey? gpu (some es) = none →
      getKey? (setKey (setKey (writeStages cpu gpu L m) "before_init_memory_cpu" x)
          "before_init_memory_gpu" y) (gpuKey es k) = getKey? m (gpuKey es k)) := by
  obtain ⟨hp1, hp2, hp3, hp4⟩ := emission_conj_plain cpu gpu L m es k hk hes
  refine ⟨?_, ?_, ?_, ?_⟩
  · intro c hc
    rw [getKey?_setKey, if_neg (cpuKey_ne_before_gpu es k hk),
      getKey?_setKey, if_neg (cpuKey_ne_before_cpu es k hk)]
    exact hp1 c hc
  · intro hc
    rw [getKey?_setKey, if_neg (cpuKey_ne_before_gpu es k hk),
      getKey?_setKey, if_neg (cpuKey_ne_before_cpu es k hk)]
    exact hp2 hc
  · intro g hgs
    rw [getKey?_setKey, if_neg (gpuKey_ne_before_gpu es k hk),
      getKey?_setKey, if_neg (gpuKey_ne_before_cpu es k hk)]
    exact hp3 g hgs
  · intro hgs
    rw [getKey?_setKey, if_neg (gpuKey_ne_before_gpu es k hk),
      getKey?_setKey, if_neg (gpuKey_ne_before_cpu es k hk)]
    exact hp4 hgs

/-- C8: a gating-passing `update_metrics` call (with init snapshots
available whenever the emitted list starts with `"init"`, so that it
completes) writes, for each emitted stage and each kind in
{alloc, peaked}, the cpu delta key exactly when that stage has a recorded
cpu snapshot and the gpu delta key exactly when it has a recorded gpu
snapshot, while every key outside the emitted delta keys and the two
baseline keys keeps its previous value in the (in-place updated) mapping. -/
theorem update_metrics_key_emission (t : MemoryTracker) (st : TrackState) (stage : String)
    (m : Metrics) (L : List String) (hskip : t.skip_memory_metrics = false)
    (ht : t.st = some st) (hg : st.cur_stage = none ∨ st.cur_stage = some stage)
    (hL : L = if st.init_reported then [stage] else ["init", stage])
    (hinit : L.head? = some "init" →
      (getKey? st.cpu (some "init")).isSome ∧ (getKey? st.gpu (some "init")).isSome) :
    (t.update_metrics stage m).2.2 = none ∧
    (∀ es ∈ L, ∀ k ∈ (["alloc", "peaked"] : List String),
      (∀ c : Snapshot, getKey? st.cpu (some es) = some c →
        getKey? (t.update_metrics stage m).2.1 (cpuKey es k) =
          some (if k = "alloc" then c.alloc else c.peaked)) ∧
      (getKey? st.cpu (some es) = none →
        getKey? (t.update_metrics stage m).2.1 (cpuKey es k) = getKey? m (cpuKey es k)) ∧
      (∀ g : Snapshot, getKey? st.gpu (some es) = some g →
        getKey? (t.update_metrics stage m).2.1 (gpuKey es k) =
          some (if k = "alloc" then g.alloc else g.peaked)) ∧
      (getKey? st.gpu (some es) = none →
        getKey? (t.update_metrics stage m).2.1 (gpuKey es k) = getKey? m (gpuKey es k))) ∧
    (∀ key : String,
      (∀ es ∈ L, key ≠ cpuKey es "alloc" ∧ key ≠ cpuKey es "peaked" ∧
        key ≠ gpuKey es "alloc" ∧ key ≠ gpuKey es "peaked") →
      key ≠ "before_init_memory_cpu" → key ≠ "before_init_memory_gpu" →
      getKey? (t.update_metrics stage m).2.1 key = getKey? m key) := by
  cases hb : st.init_reported with
  | false =>
    rw [hb] at hL
    simp only [Bool.false_eq_true, if_false] at hL
    subst hL
    obtain ⟨hcs', hgs'⟩ := hinit rfl
    obtain ⟨ci, hci⟩ := Option.isSome_iff_exists.mp hcs'
    obtain ⟨gi, hgi⟩ := Option.isSome_iff_exists.mp hgs'
    rw [update_metrics_first t st stage m ci gi hskip ht hg hb hci hgi,
      ← writeStages_pair st.cpu st.gpu "init" stage m]
    refine ⟨rfl, ?_, ?_⟩
    · intro es hes k hk
      exact emission_conj_baseline st.cpu st.gpu ["init", stage] m ci.begin gi.begin es k
        (by simpa using hk) hes
    · intro key hkeys hbc hbg
      rw [getKey?_setKey, if_neg hbg, getKey?_setKey, if_neg hbc]
      exact writeStages_other st.cpu st.gpu ["init", stage] m key hkeys
  | true =>
    rw [hb] at hL
    simp only [if_true] at hL
    subst hL
    by_cases hsi : stage = "init"
    · subst hsi
      obtain ⟨hcs', hgs'⟩ := hinit rfl
      obtain ⟨ci, hci⟩ := Option.isSome_iff_exists.mp hcs'
      obtain ⟨gi, hgi⟩ := Option.isSome_iff_exists.mp hgs'
      rw [update_metrics_rep_init t st m ci gi hskip ht hg hb hci hgi,
        ← writeStages_single st.cpu st.gpu "init" m]
      refine ⟨rfl, ?_, ?_⟩
      · intro es hes k hk
        exact emission_conj_baseline st.cpu st.gpu ["init"] m ci.begin gi.begin es k
          (by simpa using hk) hes
      · intro key hkeys hbc hbg
        rw [getKey?_setKey, if_neg hbg, getKey?_setKey, if_neg hbc]
        exact writeStages_other st.cpu st.gpu ["init"] m key hkeys
    · rw [update_metrics_rep t st stage m hskip ht hg hb hsi,
        ← writeStages_single st.cpu st.gpu stage m]
      refine ⟨rfl, ?_, ?_⟩
      · intro es hes k hk
        exact emission_conj_plain st.cpu st.gpu [stage] m es k (by simpa using hk) hes
      · intro key hkeys _ _
        exact writeStages_other st.cpu st.gpu [stage] m key hkeys

theorem update_metrics_key_emission_witness :
    getKey? ((MemoryTracker.update_metrics
        ⟨false, some ⟨[(some "train", ⟨1, 2, 3, 4⟩)], [(some "train", ⟨5, 6, 7, 8⟩)],
          none, true⟩, none, none, none, none, none, none, none⟩ "train"
        [("my_metric", 42)]).2.1) (cpuKey "train" "alloc") = some 7 ∧
    getKey? ((MemoryTracker.update_metrics
        ⟨false, some ⟨[(some "train", ⟨1, 2, 3, 4⟩)], [(some "train", ⟨5, 6, 7, 8⟩)],
          none, true⟩, none, none, none, none, none, none, none⟩ "train"
        [("my_metric", 42)]).2.1) "my_metric" = some 42 := by
  have h := update_metrics_key_emission
    ⟨false, some ⟨[(some "train", ⟨1, 2, 3, 4⟩)], [(some "train", ⟨5, 6, 7, 8⟩)],
      none, true⟩, none, none, none, none, none, none, none⟩
    ⟨[(some "train", ⟨1, 2, 3, 4⟩)], [(some "train", ⟨5, 6, 7, 8⟩)], none, true⟩
    "train" [("my_metric", 42)] ["train"] rfl rfl (Or.inl rfl) rfl
    (fun hh => absurd hh (by decide))
  constructor
  · have h1 := (h.2.1 "train" (by simp) "alloc" (by simp)).1 ⟨5, 6, 7, 8⟩ (by decide)
    simpa using h1
  · have h2 := h.2.2 "my_metric" ?_ (by decide) (by decide)
    · simpa using h2
    · intro es hes
      have he : es = "train" := by simpa using hes
      rw [he]
      refine ⟨?_, ?_, ?_, ?_⟩
      · rw [cpuKey_alloc]; exact (append_ne_const (by decide) "train").symm
      · rw [cpuKey_peaked]; exact (append_ne_const (by decide) "train").symm
      · rw [gpuKey_alloc]; exact (append_ne_const (by decide) "train").symm
      · rw [gpuKey_peaked]; exact (append_ne_const (by decide) "train").symm
